import Mathlib

/-!
Shallow embedding of the Dolmenwood Foundry VTT system module
(actor sheet, item sheet, data models and choice utilities).

Conventions of the embedding:
* JavaScript numbers that only ever hold integer values are modelled
  as `Int` (or `Nat` where the schema forces non-negativity); the exact
  rational arithmetic of the conversion formulas is modelled over `ℚ`.
* `Math.round` rounds half toward positive infinity, `Math.floor` is the
  mathematical floor; both are modelled on `ℚ`.
* The host localization lookup `game.i18n.localize` is an external
  interface of the host platform; it is modelled as the identity on keys.
-/

/-- Model of JavaScript `Math.round` (half-up rounding) on exact rationals. -/
def jsRound (q : ℚ) : ℤ := ⌊q + 1/2⌋

/-- Model of JavaScript `Math.floor` on exact rationals. -/
def jsFloor (q : ℚ) : ℤ := ⌊q⌋

/-- Model of the host `game.i18n.localize` lookup (host-provided external
interface), modelled as the identity on localization keys. -/
def localize (key : String) : String := key

/-! ## Ability scores and modifiers (`AdventurerDataModel`) -/

/-- One ability score entry: `{ score, mod }` as in `createAbilityField`. -/
structure Ability where
  score : ℤ
  mod : ℤ
  deriving DecidableEq, Repr

/-- The six ability entries of `createAbilitiesSchema`. -/
structure Abilities where
  strength : Ability
  intelligence : Ability
  wisdom : Ability
  dexterity : Ability
  constitution : Ability
  charisma : Ability
  deriving DecidableEq, Repr

/-- `AdventurerDataModel.computeModifier`: piecewise ability modifier. -/
def computeModifier (score : ℤ) : ℤ :=
  if score ≤ 3 then -3
  else if score ≤ 5 then -2
  else if score ≤ 8 then -1
  else if score ≤ 12 then 0
  else if score ≤ 15 then 1
  else if score ≤ 17 then 2
  else 3

/-- The per-ability update performed inside `prepareDerivedData`:
`ability.mod = AdventurerDataModel.computeModifier(ability.score)`. -/
def prepareAbility (a : Ability) : Ability :=
  { a with mod := computeModifier a.score }

/-- `AdventurerDataModel.prepareDerivedData` restricted to the ability
block: it walks every ability and recomputes its modifier. -/
def prepareDerivedData (ab : Abilities) : Abilities :=
  { strength := prepareAbility ab.strength
    intelligence := prepareAbility ab.intelligence
    wisdom := prepareAbility ab.wisdom
    dexterity := prepareAbility ab.dexterity
    constitution := prepareAbility ab.constitution
    charisma := prepareAbility ab.charisma }

/-! ## Attack modifiers and roll formula (`DolmenSheet`) -/

/-- The attack-relevant slice of the actor system data used by
`_getAttackModifiers`: the flat attack bonus and the ability block. -/
structure ActorSystem where
  attack : ℤ
  abilities : Abilities
  deriving DecidableEq, Repr

/-- The two attack types handled by the sheet. -/
inductive AttackType
  | melee
  | missile
  deriving DecidableEq, Repr

/-- Result record of `_getAttackModifiers`. -/
structure AttackModifiers where
  attackMod : ℤ
  abilityMod : ℤ
  totalMod : ℤ
  deriving DecidableEq, Repr

/-- `DolmenSheet._getAttackModifiers`: flat attack bonus plus the
strength modifier (melee) or dexterity modifier (missile). -/
def getAttackModifiers (system : ActorSystem) (attackType : AttackType) : AttackModifiers :=
  let attackMod := system.attack
  let abilityMod :=
    match attackType with
    | AttackType.melee => system.abilities.strength.mod
    | AttackType.missile => system.abilities.dexterity.mod
  { attackMod := attackMod, abilityMod := abilityMod, totalMod := attackMod + abilityMod }

/-- `DolmenSheet._buildAttackFormula`:
`totalMod >= 0 ? ⟨1d20 + totalMod⟩ : ⟨1d20 - abs totalMod⟩`. -/
def buildAttackFormula (totalMod : ℤ) : String :=
  if 0 ≤ totalMod then "1d20 + " ++ toString totalMod
  else "1d20 - " ++ toString totalMod.natAbs

/-! ## Experience dialog (`DolmenSheet._openXPDialog`) -/

/-- The persisted XP slice of the actor system: `system.xp.value` and
`system.xp.modifier`. -/
structure XPState where
  value : ℤ
  modifier : ℤ
  deriving DecidableEq, Repr

/-- The adjusted-XP computation of the dialog confirm callback:
`Math.floor(gained * (1 + bonus / 100))`, over exact rationals. -/
def computeAdjustedXP (gained bonus : ℤ) : ℤ :=
  jsFloor ((gained : ℚ) * (1 + (bonus : ℚ) / 100))

/-- The confirm ("add") callback of `_openXPDialog`: persists
`system.xp.value = currentXP + adjustedXP` and `system.xp.modifier = bonus`. -/
def confirmXPDialog (currentXP gained bonus : ℤ) : XPState :=
  { value := currentXP + computeAdjustedXP gained bonus, modifier := bonus }

/-! ## Height and weight unit conversion (`_setupUnitConversionListeners`) -/

/-- The feet/inches change handler `updateCmFromFeetInches`, after the
field value `F'I"` has been parsed into `feet` and `inches`:
`heightCm = Math.round((feet * 12 + inches) * 2.54)`. -/
def updateCmFromFeetInches (feet inches : ℤ) : ℤ :=
  let totalInches := feet * 12 + inches
  jsRound ((totalInches : ℚ) * (254/100))

/-- JavaScript's `%` remainder (sign of the dividend), used on the
integer `totalInches % 12`. -/
def jsRem (a b : ℤ) : ℤ := Int.tmod a b

/-- The cm change handler `updateFeetInchesFromCm`:
`totalInches = Math.round(cm / 2.54)`, then the field is rebuilt from
`Math.floor(totalInches / 12)` feet and `totalInches % 12` inches. -/
def updateFeetInchesFromCm (cm : ℤ) : ℤ × ℤ :=
  let totalInches := jsRound ((cm : ℚ) / (254/100))
  (jsFloor ((totalInches : ℚ) / 12), jsRem totalInches 12)

/-- The pounds change handler: `weightKg = Math.round(lbs * 0.453592)`. -/
def lbsToKg (lbs : ℤ) : ℤ := jsRound ((lbs : ℚ) * (453592/1000000))

/-- The kilograms change handler: `weightLbs = Math.round(kg / 0.453592)`. -/
def kgToLbs (kg : ℤ) : ℤ := jsRound ((kg : ℚ) / (453592/1000000))

/-! ## Inventory grouping (`DolmenSheet._groupItemsByType`) -/

/-- The five non-spell item types handled by the inventory tab (the
sheet filters out `Spell` items before grouping). -/
inductive ItemType
  | Weapon
  | Armor
  | Item
  | Treasure
  | Foraged
  deriving DecidableEq, Repr

/-- The document type string of an item type. -/
def typeName : ItemType → String
  | ItemType.Weapon => "Weapon"
  | ItemType.Armor => "Armor"
  | ItemType.Item => "Item"
  | ItemType.Treasure => "Treasure"
  | ItemType.Foraged => "Foraged"

/-- The fixed display order `typeOrder` of `_groupItemsByType`. -/
def typeOrder : List ItemType :=
  [ItemType.Weapon, ItemType.Armor, ItemType.Item, ItemType.Treasure, ItemType.Foraged]

/-- A prepared inventory item as handed to `_groupItemsByType` (only the
fields the grouping touches are modelled). -/
structure PreparedItem where
  name : String
  type : ItemType
  deriving DecidableEq, Repr

/-- One display group produced by `_groupItemsByType`. -/
structure ItemGroup where
  type : ItemType
  typeLower : String
  label : String
  items : List PreparedItem
  isWeapon : Bool
  isArmor : Bool
  isItem : Bool
  isTreasure : Bool
  isForaged : Bool
  deriving Repr

/-- The group record freshly created for a type (`groups[item.type] =
{...}` with an empty item list). -/
def mkGroup (t : ItemType) : ItemGroup :=
  { type := t
    typeLower := (typeName t).toLower
    label := localize ("TYPES.Item." ++ typeName t)
    items := []
    isWeapon := t == ItemType.Weapon
    isArmor := t == ItemType.Armor
    isItem := t == ItemType.Item
    isTreasure := t == ItemType.Treasure
    isForaged := t == ItemType.Foraged }

/-- One step of the grouping loop: create the type's group if missing,
then push the item onto it. The mutable `groups` dictionary is modelled
as a function from type to optional group. -/
def insertIntoGroups (groups : ItemType → Option ItemGroup) (item : PreparedItem) :
    ItemType → Option ItemGroup :=
  fun t =>
    if t = item.type then
      let g := (groups item.type).getD (mkGroup item.type)
      some { g with items := g.items ++ [item] }
    else groups t

/-- `DolmenSheet._groupItemsByType`: fold the items into the dictionary,
then emit the groups that exist, in the fixed `typeOrder`. -/
def groupItemsByType (items : List PreparedItem) : List ItemGroup :=
  let groups := items.foldl insertIntoGroups (fun _ => none)
  typeOrder.filterMap groups

/-! ## Attack workflow entry (`_getEquippedWeaponsByQuality`, `_onAttackRoll`) -/

/-- An owned item as seen by the attack workflow: document type string,
equipped flag, quality tags and damage expression. -/
structure OwnedItem where
  id : String
  itemType : String
  equipped : Bool
  qualities : List String
  damage : String
  deriving DecidableEq, Repr

/-- `DolmenSheet._getEquippedWeaponsByQuality`: the actor's items that
are weapons, equipped, and carry the requested quality tag. -/
def getEquippedWeaponsByQuality (items : List OwnedItem) (quality : String) : List OwnedItem :=
  items.filter (fun item =>
    item.itemType == "Weapon" && item.equipped && item.qualities.contains quality)

/-- Observable outcome of a left-click attack: warn-and-abort (no roll,
no state change), an immediate attack+damage roll with one weapon, or a
weapon-choice context menu. -/
inductive AttackRollOutcome
  | warned
  | rolled (weapon : OwnedItem)
  | menuOpened (weapons : List OwnedItem)
  deriving DecidableEq, Repr

/-- `DolmenSheet._onAttackRoll`: zero candidate weapons warns and
returns, exactly one rolls with `weapons[0]`, several open the menu. -/
def onAttackRoll (items : List OwnedItem) (attackType : String) : AttackRollOutcome :=
  match getEquippedWeaponsByQuality items attackType with
  | [] => AttackRollOutcome.warned
  | [w] => AttackRollOutcome.rolled w
  | ws => AttackRollOutcome.menuOpened ws

/-! ## Extra-skill dialog (`_openAddSkillDialog`) -/

/-- One held extra-skill entry (`{ id, target }`). -/
structure SkillEntry where
  id : String
  target : ℤ
  deriving DecidableEq, Repr

/-- The `CONFIG.DOLMENWOOD` slice used by the dialog: the configured
skill id list and the maximum number of extra skills. -/
structure DolmenwoodConfig where
  extraSkills : List String
  maxExtraSkills : ℕ
  deriving DecidableEq, Repr

/-- Observable outcome of the add-skill action: warn-and-abort (skill
list unchanged), or a selection dialog offering the given choices. -/
inductive AddSkillOutcome
  | warned
  | dialogOpened (choices : List String)
  deriving DecidableEq, Repr

/-- `DolmenSheet._openAddSkillDialog`: offers the configured skills not
already held; warns and aborts when none is available or the held count
has reached the configured maximum. -/
def openAddSkillDialog (config : DolmenwoodConfig) (currentSkills : List SkillEntry) :
    AddSkillOutcome :=
  let currentSkillIds := currentSkills.map (fun s => s.id)
  let availableSkills := config.extraSkills.filter (fun id => !(currentSkillIds.contains id))
  if availableSkills.length = 0 ∨ config.maxExtraSkills ≤ currentSkills.length then
    AddSkillOutcome.warned
  else
    AddSkillOutcome.dialogOpened availableSkills

/-! ## Weapon-quality checkbox toggle (`DolmenItemSheet._onRender`) -/

/-- The quality-checkbox change handler: append the quality if checked
and absent, splice out its first occurrence (`indexOf` + `splice`) if
unchecked and present, otherwise keep the list as is. -/
def toggleQuality (qualities : List String) (quality : String) (checked : Bool) : List String :=
  if checked && !(qualities.contains quality) then qualities ++ [quality]
  else if !checked && qualities.contains quality then
    qualities.eraseIdx (qualities.indexOf quality)
  else qualities

/-! ## Quantity controls (`_onIncreaseQty`, `_onDecreaseQty`) -/

/-- `DolmenSheet._onIncreaseQty` on the stored quantity: JavaScript's
`item.system.quantity || 1` maps the falsy quantity 0 to 1, then the
item is updated to `currentQty + 1`. -/
def increaseQty (quantity : ℤ) : ℤ :=
  let currentQty := if quantity = 0 then 1 else quantity
  currentQty + 1

/-- `DolmenSheet._onDecreaseQty` on the stored quantity: the item is
updated to `currentQty - 1` only when `currentQty > 1`; otherwise no
update happens and the stored quantity is unchanged. -/
def decreaseQty (quantity : ℤ) : ℤ :=
  let currentQty := if quantity = 0 then 1 else quantity
  if currentQty > 1 then currentQty - 1 else quantity

/-! ## Theorems for claims C1 - C5 -/

/-- C1: the attack roll formula string is `1d20 + totalMod` for
`totalMod ≥ 0` and `1d20 - |totalMod|` for negative `totalMod`
(`totalMod = 0` yields `1d20 + 0`), where `totalMod` is the flat attack
bonus plus the strength modifier for melee and the dexterity modifier
for missile attacks. -/
theorem c1_attack_formula (system : ActorSystem) (attackType : AttackType) :
    (getAttackModifiers system attackType).totalMod
        = system.attack + (match attackType with
            | AttackType.melee => system.abilities.strength.mod
            | AttackType.missile => system.abilities.dexterity.mod)
    ∧ (∀ totalMod : ℤ, 0 ≤ totalMod →
        buildAttackFormula totalMod = "1d20 + " ++ toString totalMod)
    ∧ (∀ totalMod : ℤ, totalMod < 0 →
        buildAttackFormula totalMod = "1d20 - " ++ toString totalMod.natAbs)
    ∧ buildAttackFormula 0 = "1d20 + 0" := by
  refine ⟨?_, ?_, ?_, by decide⟩
  · cases attackType <;> rfl
  · intro t ht
    simp [buildAttackFormula, ht]
  · intro t ht
    unfold buildAttackFormula
    rw [if_neg (by omega)]

/-- Witness for C1 at concrete total modifiers 3, -2 and 0. -/
theorem c1_attack_formula_witness :
    buildAttackFormula 3 = "1d20 + " ++ toString (3 : ℤ)
    ∧ buildAttackFormula (-2) = "1d20 - " ++ toString (Int.natAbs (-2))
    ∧ buildAttackFormula 0 = "1d20 + 0" := by
  have h := c1_attack_formula
    ⟨0, ⟨10, 0⟩, ⟨10, 0⟩, ⟨10, 0⟩, ⟨10, 0⟩, ⟨10, 0⟩, ⟨10, 0⟩⟩ AttackType.melee
  exact ⟨h.2.1 3 (by decide), h.2.2.1 (-2) (by decide), h.2.2.2⟩

/-- C2: for scores in `[3, 18]`, `computeModifier` agrees with the
piecewise table (with exact agreement at the boundaries 3, 5, 8, 12, 15,
17, 18), and derived-data preparation sets every stored ability modifier
to `computeModifier` of its score. -/
theorem c2_compute_modifier (s : ℤ) (h3 : 3 ≤ s) (h18 : s ≤ 18) :
    computeModifier s =
      (if s ≤ 3 then -3 else if s ≤ 5 then -2 else if s ≤ 8 then -1
       else if s ≤ 12 then 0 else if s ≤ 15 then 1 else if s ≤ 17 then 2 else 3)
    ∧ (computeModifier 3 = -3 ∧ computeModifier 5 = -2 ∧ computeModifier 8 = -1
       ∧ computeModifier 12 = 0 ∧ computeModifier 15 = 1 ∧ computeModifier 17 = 2
       ∧ computeModifier 18 = 3)
    ∧ ∀ ab : Abilities,
        (prepareDerivedData ab).strength.mod = computeModifier ab.strength.score
        ∧ (prepareDerivedData ab).intelligence.mod = computeModifier ab.intelligence.score
        ∧ (prepareDerivedData ab).wisdom.mod = computeModifier ab.wisdom.score
        ∧ (prepareDerivedData ab).dexterity.mod = computeModifier ab.dexterity.score
        ∧ (prepareDerivedData ab).constitution.mod = computeModifier ab.constitution.score
        ∧ (prepareDerivedData ab).charisma.mod = computeModifier ab.charisma.score := by
  exact ⟨rfl, by decide, fun ab => ⟨rfl, rfl, rfl, rfl, rfl, rfl⟩⟩

/-- Witness for C2 at the score 10 (and the boundary facts it carries). -/
theorem c2_compute_modifier_witness :
    computeModifier 10 =
      (if (10:ℤ) ≤ 3 then -3 else if (10:ℤ) ≤ 5 then -2 else if (10:ℤ) ≤ 8 then -1
       else if (10:ℤ) ≤ 12 then 0 else if (10:ℤ) ≤ 15 then 1 else if (10:ℤ) ≤ 17 then 2 else 3)
    ∧ computeModifier 3 = -3 ∧ computeModifier 18 = 3 := by
  have h := c2_compute_modifier 10 (by decide) (by decide)
  exact ⟨h.1, h.2.1.1, h.2.1.2.2.2.2.2.2⟩

/-- C3: confirming the experience dialog computes
`adjusted = floor(gained * (1 + bonus/100))` and persists
`new XP = current XP + adjusted` together with the entered bonus;
`gained = 100, bonus = 10` gives 110 and `gained = 0` gives 0. -/
theorem c3_xp_dialog (currentXP gained bonus : ℤ) (hg : 0 ≤ gained)
    (hb1 : -20 ≤ bonus) (hb2 : bonus ≤ 20) :
    (confirmXPDialog currentXP gained bonus).value
        = currentXP + ⌊(gained : ℚ) * (1 + (bonus : ℚ) / 100)⌋
    ∧ (confirmXPDialog currentXP gained bonus).modifier = bonus
    ∧ computeAdjustedXP 100 10 = 110
    ∧ computeAdjustedXP 0 bonus = 0 := by
  refine ⟨rfl, rfl, by norm_num [computeAdjustedXP, jsFloor], ?_⟩
  simp [computeAdjustedXP, jsFloor]

/-- Witness for C3 at `currentXP = 0`, `gained = 100`, `bonus = 10`. -/
theorem c3_xp_dialog_witness :
    (confirmXPDialog 0 100 10).value = 0 + ⌊(100 : ℚ) * (1 + (10 : ℚ) / 100)⌋
    ∧ (confirmXPDialog 0 100 10).modifier = 10
    ∧ computeAdjustedXP 100 10 = 110
    ∧ computeAdjustedXP 0 10 = 0 := by
  exact c3_xp_dialog 0 100 10 (by decide) (by decide) (by decide)

/-- C4: editing the feet/inches field recomputes the cm field as
`round((F*12+I) * 2.54)`; editing the cm field recomputes feet and
inches from `totalInches = round(cm / 2.54)` as `floor(totalInches/12)`
feet and `totalInches mod 12` inches; `5'10"` maps to 178 cm and 178 cm
maps back to `5'10"`. -/
theorem c4_height_conversion (feet inches cm : ℤ) (hcm : 0 ≤ cm) :
    updateCmFromFeetInches feet inches
        = jsRound (((feet * 12 + inches : ℤ) : ℚ) * (254/100))
    ∧ (updateFeetInchesFromCm cm).1 = (jsRound ((cm : ℚ) / (254/100))).fdiv 12
    ∧ (updateFeetInchesFromCm cm).2 = (jsRound ((cm : ℚ) / (254/100))).emod 12
    ∧ updateCmFromFeetInches 5 10 = 178
    ∧ updateFeetInchesFromCm 178 = (5, 10) := by
  have hti : 0 ≤ jsRound ((cm : ℚ) / (254/100)) := by
    unfold jsRound
    rw [Int.le_floor]
    have : (0:ℚ) ≤ (cm : ℚ) / (254/100) := by positivity
    push_cast
    linarith
  refine ⟨rfl, ?_, ?_, ?_, ?_⟩
  · show jsFloor ((jsRound ((cm : ℚ) / (254/100)) : ℚ) / 12)
        = (jsRound ((cm : ℚ) / (254/100))).fdiv 12
    unfold jsFloor
    rw [show ((12:ℚ)) = ((12:ℕ) : ℚ) by norm_num, Rat.floor_intCast_div_natCast,
      Int.fdiv_eq_ediv _ (by norm_num)]
    norm_num
  · show jsRem (jsRound ((cm : ℚ) / (254/100))) 12
        = (jsRound ((cm : ℚ) / (254/100))).emod 12
    unfold jsRem
    rw [Int.tmod_eq_emod hti (by norm_num)]
    rfl
  · norm_num [updateCmFromFeetInches, jsRound]
  · have h70 : jsRound (((178 : ℤ) : ℚ) / (254/100)) = 70 := by norm_num [jsRound]
    show (jsFloor ((jsRound (((178 : ℤ) : ℚ) / (254/100)) : ℚ) / 12),
        jsRem (jsRound (((178 : ℤ) : ℚ) / (254/100))) 12) = (5, 10)
    rw [h70, Prod.ext_iff]
    exact ⟨by norm_num [jsFloor], by decide⟩

/-- Witness for C4 at `5'10"` and 178 cm. -/
theorem c4_height_conversion_witness :
    updateCmFromFeetInches 5 10
        = jsRound (((5 * 12 + 10 : ℤ) : ℚ) * (254/100))
    ∧ updateCmFromFeetInches 5 10 = 178
    ∧ updateFeetInchesFromCm 178 = (5, 10) := by
  have h := c4_height_conversion 5 10 178 (by decide)
  exact ⟨h.1, h.2.2.2.1, h.2.2.2.2⟩

/-- C5: pounds edits recompute kilograms as `round(lbs * 0.453592)`,
kilogram edits recompute pounds as `round(kg / 0.453592)`, the round
trip `lbs → kg → lbs` differs from the original by at most 1, and
`150 lbs → 68 kg → 150 lbs`. -/
theorem c5_weight_conversion (lbs kg : ℤ) :
    lbsToKg lbs = jsRound ((lbs : ℚ) * (453592/1000000))
    ∧ kgToLbs kg = jsRound ((kg : ℚ) / (453592/1000000))
    ∧ |kgToLbs (lbsToKg lbs) - lbs| ≤ 1
    ∧ lbsToKg 150 = 68 ∧ kgToLbs 68 = 150 := by
  refine ⟨rfl, rfl, ?_, by norm_num [lbsToKg, jsRound], by norm_num [kgToLbs, jsRound]⟩
  have hc : (0:ℚ) < 453592/1000000 := by norm_num
  set k : ℤ := lbsToKg lbs with hk
  have h1 : (k:ℚ) ≤ (lbs:ℚ) * (453592/1000000) + 1/2 := by
    rw [hk]; unfold lbsToKg jsRound; exact Int.floor_le _
  have h2 : (lbs:ℚ) * (453592/1000000) + 1/2 < (k:ℚ) + 1 := by
    rw [hk]; unfold lbsToKg jsRound; exact Int.lt_floor_add_one _
  set r : ℤ := kgToLbs k with hr
  have h3 : (r:ℚ) ≤ (k:ℚ) / (453592/1000000) + 1/2 := by
    rw [hr]; unfold kgToLbs jsRound; exact Int.floor_le _
  have h4 : (k:ℚ) / (453592/1000000) + 1/2 < (r:ℚ) + 1 := by
    rw [hr]; unfold kgToLbs jsRound; exact Int.lt_floor_add_one _
  have expand1 : ((lbs:ℚ) + 62500/56699) * (453592/1000000)
      = (lbs:ℚ) * (453592/1000000) + 1/2 := by ring_nf
  have expand2 : ((lbs:ℚ) - 62500/56699) * (453592/1000000)
      = (lbs:ℚ) * (453592/1000000) - 1/2 := by ring_nf
  have h5 : (k:ℚ) / (453592/1000000) ≤ (lbs:ℚ) + 62500/56699 := by
    rw [div_le_iff₀ hc, expand1]; exact h1
  have h6 : (lbs:ℚ) - 62500/56699 < (k:ℚ) / (453592/1000000) := by
    rw [lt_div_iff₀ hc, expand2]; linarith
  have hd : (62500:ℚ)/56699 < 3/2 := by norm_num
  have hb1 : (r:ℚ) < (lbs:ℚ) + 2 := by linarith
  have hb2 : (lbs:ℚ) - 2 < (r:ℚ) := by linarith
  have hb1i : r < lbs + 2 := by exact_mod_cast hb1
  have hb2i : lbs - 2 < r := by exact_mod_cast hb2
  rw [abs_le]
  omega

/-! ## Theorems for claims C6 - C10 -/

/-- Pointwise characterization of the grouping fold: after folding the
items into the dictionary, a type's slot holds its starting content when
no item has that type, and otherwise the (possibly fresh) group with the
type's items appended in input order. -/
theorem foldl_insertIntoGroups (items : List PreparedItem)
    (g0 : ItemType → Option ItemGroup) (t : ItemType) :
    items.foldl insertIntoGroups g0 t =
      if (items.filter (fun i => i.type == t)).isEmpty then g0 t
      else
        some { (g0 t).getD (mkGroup t) with
          items := ((g0 t).getD (mkGroup t)).items
            ++ items.filter (fun i => i.type == t) } := by
  induction items generalizing g0 with
  | nil => simp
  | cons hd tl ih =>
    by_cases hhd : hd.type = t
    · subst hhd
      rw [List.foldl_cons, ih]
      simp only [insertIntoGroups, if_pos rfl, List.filter_cons, beq_self_eq_true, if_true,
        Option.getD_some, List.isEmpty_cons, Bool.false_eq_true, if_false]
      by_cases he : (tl.filter (fun i => i.type == hd.type)).isEmpty = true
      · rw [if_pos he, List.isEmpty_iff.mp he]
      · rw [if_neg he]
        simp [List.append_assoc]
    · rw [List.foldl_cons, ih]
      have h1 : insertIntoGroups g0 hd t = g0 t := by
        simp [insertIntoGroups, Ne.symm hhd]
      have h2 : (hd.type == t) = false := by simp [hhd]
      rw [h1, List.filter_cons, h2]
      simp

/-- A `filterMap` whose function is an if-then-else between `none` and
`some` is a filter followed by a map. -/
theorem filterMap_ite_none {α β : Type} (l : List α) (q : α → Bool) (f : α → β) :
    (l.filterMap fun a => if q a then none else some (f a))
      = (l.filter (fun a => !q a)).map f := by
  induction l with
  | nil => rfl
  | cons hd tl ih =>
    by_cases h : q hd <;> simp [List.filterMap_cons, List.filter_cons, h, ih]

/-- The grouping dictionary evaluated at a type. -/
theorem groups_eval (items : List PreparedItem) (t : ItemType) :
    items.foldl insertIntoGroups (fun _ => none) t =
      if (items.filter (fun i => i.type == t)).isEmpty then none
      else some { mkGroup t with items := items.filter (fun i => i.type == t) } := by
  rw [foldl_insertIntoGroups]
  split_ifs <;> simp [mkGroup]

/-- A non-empty filter is the same Boolean fact as `any`. -/
theorem not_isEmpty_filter_eq_any (l : List PreparedItem) (t : ItemType) :
    (!(l.filter (fun i => i.type == t)).isEmpty) = l.any (fun i => i.type == t) := by
  induction l with
  | nil => rfl
  | cons hd tl ih =>
    by_cases hh : (hd.type == t) = true <;> simp [List.filter_cons, List.any_cons, hh, ih]

/-- Every item type occurs in the fixed display order list. -/
theorem mem_typeOrder (t : ItemType) : t ∈ typeOrder := by
  cases t <;> simp [typeOrder]

/-- C6: grouping prepared inventory items returns groups in the fixed
order Weapon, Armor, Item, Treasure, Foraged, each group holding exactly
the input items of its type in input order together with a localized
label and per-type boolean flags; a group is absent exactly when no
input item has its type; the example input with types
[Armor, Weapon, Weapon, Treasure] yields [Weapon(2), Armor(1),
Treasure(1)]. -/
theorem c6_group_items_by_type (items : List PreparedItem) :
    groupItemsByType items
        = (typeOrder.filter fun t => !(items.filter (fun i => i.type == t)).isEmpty).map
            (fun t => { mkGroup t with items := items.filter (fun i => i.type == t) })
    ∧ (∀ g ∈ groupItemsByType items,
        g.items = items.filter (fun i => i.type == g.type)
        ∧ g.label = localize ("TYPES.Item." ++ typeName g.type)
        ∧ g.isWeapon = (g.type == ItemType.Weapon)
        ∧ g.isArmor = (g.type == ItemType.Armor)
        ∧ g.isItem = (g.type == ItemType.Item)
        ∧ g.isTreasure = (g.type == ItemType.Treasure)
        ∧ g.isForaged = (g.type == ItemType.Foraged))
    ∧ (∀ t : ItemType,
        (∃ g ∈ groupItemsByType items, g.type = t) ↔ ∃ i ∈ items, i.type = t)
    ∧ (groupItemsByType items).map (fun g => g.type)
        = typeOrder.filter (fun t => items.any (fun i => i.type == t))
    ∧ groupItemsByType
        [⟨"a", ItemType.Armor⟩, ⟨"w1", ItemType.Weapon⟩, ⟨"w2", ItemType.Weapon⟩,
         ⟨"t", ItemType.Treasure⟩]
        = [{ mkGroup ItemType.Weapon with
              items := [⟨"w1", ItemType.Weapon⟩, ⟨"w2", ItemType.Weapon⟩] },
           { mkGroup ItemType.Armor with items := [⟨"a", ItemType.Armor⟩] },
           { mkGroup ItemType.Treasure with items := [⟨"t", ItemType.Treasure⟩] }] := by
  have h1 : ∀ its : List PreparedItem, groupItemsByType its
      = (typeOrder.filter fun t => !(its.filter (fun i => i.type == t)).isEmpty).map
          (fun t => { mkGroup t with items := its.filter (fun i => i.type == t) }) := by
    intro its
    unfold groupItemsByType
    rw [List.filterMap_congr (fun t _ => groups_eval its t)]
    exact filterMap_ite_none typeOrder _ _
  refine ⟨h1 items, ?_, ?_, ?_, ?_⟩
  · intro g hg
    rw [h1 items] at hg
    obtain ⟨t, _, rfl⟩ := List.mem_map.mp hg
    exact ⟨by simp [mkGroup], by simp [mkGroup], by simp [mkGroup], by simp [mkGroup],
      by simp [mkGroup], by simp [mkGroup], by simp [mkGroup]⟩
  · intro t
    rw [h1 items]
    constructor
    · rintro ⟨g, hg, rfl⟩
      obtain ⟨u, hu, rfl⟩ := List.mem_map.mp hg
      have hu2 := (List.mem_filter.mp hu).2
      show ∃ i ∈ items, i.type = u
      rw [not_isEmpty_filter_eq_any] at hu2
      obtain ⟨i, hi, hit⟩ := List.any_eq_true.mp hu2
      exact ⟨i, hi, by simpa using hit⟩
    · rintro ⟨i, hi, rfl⟩
      refine ⟨{ mkGroup i.type with items := items.filter (fun j => j.type == i.type) },
        List.mem_map.mpr ⟨i.type, List.mem_filter.mpr ⟨mem_typeOrder i.type, ?_⟩, rfl⟩,
        by simp [mkGroup]⟩
      rw [not_isEmpty_filter_eq_any]
      exact List.any_eq_true.mpr ⟨i, hi, by simp⟩
  · rw [h1 items, List.map_map]
    have hmap : ∀ u ∈ (typeOrder.filter
        fun t => !(items.filter (fun i => i.type == t)).isEmpty),
        ((fun g => g.type) ∘
          (fun t => { mkGroup t with items := items.filter (fun i => i.type == t) })) u
          = id u := by
      intro u _
      simp [mkGroup]
    rw [List.map_congr_left hmap, List.map_id]
    exact List.filter_congr (fun t _ => not_isEmpty_filter_eq_any items t)
  · rw [h1]
    rfl

/-- Witness for C6: the example grouping together with the properties of
its weapon group. -/
theorem c6_group_items_by_type_witness :
    groupItemsByType
        [⟨"a", ItemType.Armor⟩, ⟨"w1", ItemType.Weapon⟩, ⟨"w2", ItemType.Weapon⟩,
         ⟨"t", ItemType.Treasure⟩]
        = [{ mkGroup ItemType.Weapon with
              items := [⟨"w1", ItemType.Weapon⟩, ⟨"w2", ItemType.Weapon⟩] },
           { mkGroup ItemType.Armor with items := [⟨"a", ItemType.Armor⟩] },
           { mkGroup ItemType.Treasure with items := [⟨"t", ItemType.Treasure⟩] }]
    ∧ (groupItemsByType
        [⟨"a", ItemType.Armor⟩, ⟨"w1", ItemType.Weapon⟩, ⟨"w2", ItemType.Weapon⟩,
         ⟨"t", ItemType.Treasure⟩]).map (fun g => g.type)
        = [ItemType.Weapon, ItemType.Armor, ItemType.Treasure] :=
  ⟨(c6_group_items_by_type
      [⟨"a", ItemType.Armor⟩, ⟨"w1", ItemType.Weapon⟩, ⟨"w2", ItemType.Weapon⟩,
       ⟨"t", ItemType.Treasure⟩]).2.2.2.2, by
    rw [(c6_group_items_by_type
      [⟨"a", ItemType.Armor⟩, ⟨"w1", ItemType.Weapon⟩, ⟨"w2", ItemType.Weapon⟩,
       ⟨"t", ItemType.Treasure⟩]).2.2.2.1]
    rfl⟩

/-- C7: the candidate set of a left-click attack is exactly the equipped
weapons carrying the requested quality tag; an empty set warns and
aborts (no roll, no state change), a singleton rolls immediately with
that weapon, and two or more open the weapon-choice menu. -/
theorem c7_attack_roll (items : List OwnedItem) (attackType : String) :
    (∀ i, i ∈ getEquippedWeaponsByQuality items attackType ↔
        i ∈ items ∧ i.itemType = "Weapon" ∧ i.equipped = true ∧ attackType ∈ i.qualities)
    ∧ (getEquippedWeaponsByQuality items attackType = [] →
        onAttackRoll items attackType = AttackRollOutcome.warned)
    ∧ (∀ w, getEquippedWeaponsByQuality items attackType = [w] →
        onAttackRoll items attackType = AttackRollOutcome.rolled w)
    ∧ (∀ w1 w2 ws, getEquippedWeaponsByQuality items attackType = w1 :: w2 :: ws →
        onAttackRoll items attackType = AttackRollOutcome.menuOpened (w1 :: w2 :: ws)) := by
  refine ⟨?_, ?_, ?_, ?_⟩
  · intro i
    simp [getEquippedWeaponsByQuality, List.mem_filter, and_assoc]
  · intro h
    simp [onAttackRoll, h]
  · intro w h
    simp [onAttackRoll, h]
  · intro w1 w2 ws h
    simp [onAttackRoll, h]

/-- Witness for C7: one equipped melee weapon rolls immediately; an
actor with no matching weapon warns. -/
theorem c7_attack_roll_witness :
    onAttackRoll [⟨"i1", "Weapon", true, ["melee"], "1d8"⟩] "melee"
        = AttackRollOutcome.rolled ⟨"i1", "Weapon", true, ["melee"], "1d8"⟩
    ∧ onAttackRoll [⟨"i1", "Weapon", false, ["melee"], "1d8"⟩] "melee"
        = AttackRollOutcome.warned :=
  ⟨(c7_attack_roll [⟨"i1", "Weapon", true, ["melee"], "1d8"⟩] "melee").2.2.1
      ⟨"i1", "Weapon", true, ["melee"], "1d8"⟩ (by decide),
   (c7_attack_roll [⟨"i1", "Weapon", false, ["melee"], "1d8"⟩] "melee").2.1 (by decide)⟩

/-- C8: the add-extra-skill action is rejected with a warning (skill
list unchanged) whenever the held count has reached the configured
maximum, even if unused skill ids remain; when the dialog opens, its
choices are exactly the configured skill ids not already held. -/
theorem c8_add_skill (config : DolmenwoodConfig) (currentSkills : List SkillEntry) :
    (config.maxExtraSkills ≤ currentSkills.length →
      openAddSkillDialog config currentSkills = AddSkillOutcome.warned)
    ∧ (∀ choices,
        openAddSkillDialog config currentSkills = AddSkillOutcome.dialogOpened choices →
        choices = config.extraSkills.filter
          (fun id => !((currentSkills.map (fun s => s.id)).contains id))) := by
  constructor
  · intro h
    simp only [openAddSkillDialog]
    rw [if_pos (Or.inr h)]
  · intro choices h
    simp only [openAddSkillDialog] at h
    split at h
    · cases h
    · cases h
      rfl

/-- Witness for C8: with maximum 1 and one held skill, the action warns
even though the configured id "b" is still unused. -/
theorem c8_add_skill_witness :
    openAddSkillDialog ⟨["a", "b"], 1⟩ [⟨"a", 6⟩] = AddSkillOutcome.warned :=
  (c8_add_skill ⟨["a", "b"], 1⟩ [⟨"a", 6⟩]).1 (by decide)

/-- C9: toggling a quality checkbox appends the quality when checked and
absent, removes its first occurrence when unchecked and present, and
otherwise leaves the persisted list unchanged. -/
theorem c9_toggle_quality (qualities : List String) (quality : String) (checked : Bool) :
    (checked = true → quality ∉ qualities →
      toggleQuality qualities quality checked = qualities ++ [quality])
    ∧ (checked = false → quality ∈ qualities →
      toggleQuality qualities quality checked = qualities.erase quality)
    ∧ (checked = true → quality ∈ qualities →
      toggleQuality qualities quality checked = qualities)
    ∧ (checked = false → quality ∉ qualities →
      toggleQuality qualities quality checked = qualities) := by
  refine ⟨?_, ?_, ?_, ?_⟩ <;> intro hc hm <;> subst hc
  · simp [toggleQuality, hm]
  · simp only [toggleQuality, Bool.false_and, Bool.false_eq_true, if_false, Bool.not_false,
      Bool.true_and]
    rw [if_pos (by simpa using hm)]
    exact List.eraseIdx_indexOf_eq_erase quality qualities
  · simp [toggleQuality, hm]
  · simp [toggleQuality, hm]

/-- Witness for C9: adding a missing quality, removing a present one,
and the two no-change cases, on concrete lists. -/
theorem c9_toggle_quality_witness :
    toggleQuality ["melee"] "missile" true = ["melee"] ++ ["missile"]
    ∧ toggleQuality ["melee", "reach"] "melee" false = ["melee", "reach"].erase "melee"
    ∧ toggleQuality ["melee"] "melee" true = ["melee"]
    ∧ toggleQuality ["melee"] "missile" false = ["melee"] :=
  ⟨(c9_toggle_quality ["melee"] "missile" true).1 rfl (by decide),
   (c9_toggle_quality ["melee", "reach"] "melee" false).2.1 rfl (by decide),
   (c9_toggle_quality ["melee"] "melee" true).2.2.1 rfl (by decide),
   (c9_toggle_quality ["melee"] "missile" false).2.2.2 rfl (by decide)⟩

/-- C10: starting from a stored quantity of at least 1, increasing sets
exactly quantity + 1; decreasing sets quantity - 1 only when the
quantity exceeds 1 and otherwise changes nothing; both operations
preserve quantity ≥ 1. -/
theorem c10_quantity (q : ℤ) (hq : 1 ≤ q) :
    increaseQty q = q + 1
    ∧ decreaseQty q = (if 1 < q then q - 1 else q)
    ∧ 1 ≤ increaseQty q
    ∧ 1 ≤ decreaseQty q := by
  have h1 : increaseQty q = q + 1 := by
    simp [increaseQty, show q ≠ 0 from by omega]
  have h2 : decreaseQty q = (if 1 < q then q - 1 else q) := by
    simp [decreaseQty, show q ≠ 0 from by omega]
  refine ⟨h1, h2, by rw [h1]; omega, ?_⟩
  rw [h2]
  split <;> omega

/-- Witness for C10 at quantity 2 (and implicitly the guard at 1 via the
if). -/
theorem c10_quantity_witness :
    increaseQty 2 = 2 + 1
    ∧ decreaseQty 2 = (if (1:ℤ) < 2 then 2 - 1 else 2)
    ∧ 1 ≤ increaseQty 2
    ∧ 1 ≤ decreaseQty 2 :=
  c10_quantity 2 (by decide)
